import Mathlib

/-!
# Verification of the tidy-exit graceful-shutdown coordinator

A shallow embedding of `src/lib/tidy-exit.js`.  The module's process-wide
mutable variables become the fields of a single state record `St`; each
source function becomes a Lean function on `St`.  Asynchronous behaviour
(signal delivery, cleanup callbacks invoking their completion closures,
the safety-net timer firing, server close completion) is modelled as a
trace of externally scheduled actions (`Act`) driving a step function.

`process.exit` terminates the Node process and does not return; this is
rendered by `doExit` recording the exit code at most once and by every
loop in a cascade checking the `exited` field before running further
code (`iterLive` / `foldLive`), mirroring the fact that code scheduled
after a real `process.exit` never runs.

Instrumentation fields (`exit_call_count`, `broadcast_count`,
`done_events`, `issued_tokens`, `log_count`) are ghost observers: the
source functions never read them, they only record that a process-exit
call, a `tidyExit` broadcast, a `done` emission, a handed-out completion
closure, or a `log(...)` call happened.
-/

namespace TidyExit

/-- The three trapped OS signals (`SYSTEM_EXIT_SIGNALS` in the source). -/
inductive PSig
  | sigterm
  | sigint
  | sigbreak
deriving DecidableEq, Repr

/-- A listener found on an http server's `request` event: either an express
app (duck-typed: has `use`/`set`/`get`) identified by index, or a plain
handler function. -/
inductive RL
  | expressL (i : Nat)
  | plainL
deriving DecidableEq, Repr

/-- A one-shot subscriber on the internal `tidyExit` broadcast channel,
identified by the kind of `appExitHandler` closure it wraps (the body run
when the broadcast fires it):
application callback, `_defaultExitHandler`, the express-app flag-flipping
task from `hookExpressApp`, or the `server.close` task from
`hookHttpServer`. -/
inductive Sub
  | app (id : Nat)
  | dflt
  | express (i : Nat)
  | http (i : Nat)
deriving DecidableEq, Repr

/-- An express app object: its `tidy_exit_state` property
(`none` = undefined, `some b` = set to `b`) and how many times the
tidy-exit middleware was installed via `app.use`. -/
structure App where
  flag : Option Bool
  mw : Nat
deriving DecidableEq, Repr

/-- An http server object: whether `server.close` has been called, and its
`request` listeners (read by `hookHttpServer` for duck-typed express
detection). -/
structure Srv where
  closing : Bool
  rls : List RL
deriving DecidableEq, Repr

/-- The `exit_signal_handlers` bookkeeping object: per event name, the
number of tracked handlers (the JS value is an array of handlers, or null
after cleanup, rendered as count 0). -/
structure Tracked where
  msgH : Nat
  termH : Nat
  intH : Nat
  breakH : Nat
deriving DecidableEq, Repr

/-- The whole module state: one field per module-level variable of
`tidy-exit.js`, the external app/server objects the hooks touch, and the
ghost instrumentation fields. -/
structure St where
  /-- number of `log(...)` invocations (ghost observer of the logger) -/
  log_count : Nat
  /-- once-subscribers on the `tidyExit` event, in registration order -/
  subs : List Sub
  /-- how many times `_checkHandlersDone` is bound to the `done` event -/
  done_bound : Nat
  /-- `registered_handlers_count`: subscriber count snapshot at signal time -/
  registered_handlers_count : Nat
  /-- `handler_callback_registry`: per-slot completion counters -/
  handler_callback_registry : List Nat
  /-- `max_timeout`: `none` = null (cleared), `some v` = the number `v` -/
  max_timeout : Option Nat
  /-- `max_handler_timeout`: running max of registration timeouts -/
  max_handler_timeout : Nat
  /-- `listening_to_exit` guard flag -/
  listening_to_exit : Bool
  /-- `exit_signal_handlers`: `none` = never created -/
  tracked : Option Tracked
  /-- number of bound process listeners on the `message` event -/
  proc_msg : Nat
  /-- number of bound process listeners on SIGTERM -/
  proc_sigterm : Nat
  /-- number of bound process listeners on SIGINT -/
  proc_sigint : Nat
  /-- number of bound process listeners on SIGBREAK -/
  proc_sigbreak : Nat
  /-- `default_exit_timer`: armed duration; the JS handle stays truthy
  even after the timer fired, so this field is not cleared on fire -/
  default_exit_timer : Option Nat
  /-- whether the armed timer has not yet fired (a fired or cleared
  `setTimeout` cannot fire again) -/
  timer_live : Bool
  /-- exit code recorded by the first `process.exit` call, if any -/
  exited : Option Nat
  /-- ghost: number of `process.exit` calls that took effect -/
  exit_call_count : Nat
  /-- ghost: number of `tidyExit` broadcast emissions -/
  broadcast_count : Nat
  /-- ghost: slots carried by each `done` emission, in order -/
  done_events : List Nat
  /-- ghost: slot indices handed to application callbacks at fire time -/
  issued_tokens : List Nat
  /-- the express app objects of the world, by index -/
  apps : List App
  /-- the http server objects of the world, by index -/
  servers : List Srv
  /-- pending `server.close(done)` callbacks: (server index, slot) -/
  pending_close : List (Nat × Nat)
deriving DecidableEq, Repr

/-- `process.exit(code)`: records the code once; a second call cannot
happen in a live process because the first one never returns. -/
def doExit (code : Nat) (s : St) : St :=
  if s.exited.isSome then s
  else { s with exited := some code, exit_call_count := s.exit_call_count + 1 }

/-- JS numeric value of `max_timeout` for truthiness tests and
comparisons: `null` compares/tests like 0. -/
def mval (s : St) : Nat := s.max_timeout.getD 0

/-- `getTimeout()` from the source: handler max wins when nonzero and the
explicit max is unset or larger; else the explicit max when nonzero; else
the 2-minute default. -/
def getTimeout (s : St) : Nat :=
  if s.max_handler_timeout ≠ 0 ∧ (mval s = 0 ∨ s.max_handler_timeout < mval s) then
    s.max_handler_timeout
  else if mval s ≠ 0 then
    mval s
  else
    120000

/-- `setMaxTimeout(timeout)`. -/
def setMaxTimeout (t : Option Nat) (s : St) : St :=
  { s with max_timeout := t }

/-- `_registerExitListeners()`: when the guard is unset, bind one
single-fire process listener for `message` and each system signal,
track them in `exit_signal_handlers`, and set the guard. -/
def _registerExitListeners (s : St) : St :=
  if s.listening_to_exit ≠ true then
    let t := s.tracked.getD ⟨0, 0, 0, 0⟩
    { s with
      proc_msg := s.proc_msg + 1
      proc_sigterm := s.proc_sigterm + 1
      proc_sigint := s.proc_sigint + 1
      proc_sigbreak := s.proc_sigbreak + 1
      tracked := some ⟨t.msgH + 1, t.termH + 1, t.intH + 1, t.breakH + 1⟩
      listening_to_exit := true }
  else s

/-- `addTidyExitHandler(appExitHandler, desc, timeout)`: arm the signal
listeners lazily, subscribe the task one-shot on the broadcast channel,
and raise the running handler-timeout max when the given timeout exceeds
it (`undefined > x` is false in JS, rendered by the `none` case). -/
def addTidyExitHandler (sub : Sub) (timeout : Option Nat) (s : St) : St :=
  let s := _registerExitListeners s
  let s := { s with subs := s.subs ++ [sub] }
  match timeout with
  | some t => if s.max_handler_timeout < t then { s with max_handler_timeout := t } else s
  | none => s

/-- Increment the counter at index `i` of the registry. -/
def incAt (l : List Nat) (i : Nat) : List Nat :=
  l.set i (l.getD i 0 + 1)

/-- The increment phase of `_checkHandlersDone`: a truthy in-range slot
number increments its counter, a truthy out-of-range one logs the
"Invalid callback handler number" line, a falsy or missing one does
nothing. -/
def bumpSlot (cnt : Nat) (n : Option Nat) (s : St) : St :=
  match n with
  | some k =>
    if k ≠ 0 then
      if k ≤ cnt then
        { s with handler_callback_registry := incAt s.handler_callback_registry (k - 1) }
      else
        { s with log_count := s.log_count + 1 }
    else s
  | none => s

/-- `_checkHandlersDone(handler_number)`: run the increment phase, then
evaluate the drained condition (snapshot ≤ registry length and every
counter ≥ 1), call `process.exit(0)` when it holds, and return it. -/
def _checkHandlersDone (n : Option Nat) (s : St) : St × Bool :=
  let cnt := s.handler_callback_registry.length
  let s := bumpSlot cnt n s
  if s.registered_handlers_count ≤ cnt then
    let all_done := s.handler_callback_registry.all fun c => decide (1 ≤ c)
    if all_done then (doExit 0 s, true) else (s, false)
  else (s, false)

/-- Run `f` only when the process has not exited: code scheduled after a
`process.exit` in the same cascade never runs. -/
def ifLive (f : St → St) (s : St) : St :=
  if s.exited.isSome then s else f s

/-- Iterate `f` up to `n` times, stopping work once the process exited. -/
def iterLive (f : St → St) : Nat → St → St
  | 0, s => s
  | n + 1, s => iterLive f n (ifLive f s)

/-- Fold `f` over a list, stopping work once the process exited. -/
def foldLive (f : α → St → St) : List α → St → St
  | [], s => s
  | x :: xs, s => foldLive f xs (ifLive (f x) s)

/-- The completion closure handed to each fired task:
`tidy_exit_event.emit(GRACEFUL_DONE, handler_number)` — the emitter runs
`_checkHandlersDone` once per bound `done` listener. -/
def emitDone (slot : Nat) (s : St) : St :=
  let s := { s with done_events := s.done_events ++ [slot] }
  iterLive (fun s => (_checkHandlersDone (some slot) s).1) s.done_bound s

/-- `_defaultExitHandler(err, done)`: arm the suicide timer for
`getTimeout()` ms when no timer handle exists, then invoke `done()`
unconditionally. -/
def _defaultExitHandler (slot : Nat) (s : St) : St :=
  let s :=
    if s.default_exit_timer = none then
      { s with default_exit_timer := some (getTimeout s), timer_live := true }
    else s
  emitDone slot s

/-- `app.set('tidy_exit_state', b)` on app `i`. -/
def appSetFlag (i : Nat) (b : Bool) (s : St) : St :=
  match s.apps.get? i with
  | some a => { s with apps := s.apps.set i { a with flag := some b } }
  | none => s

/-- Fire one `tidyExit` subscriber: append a fresh slot (its 1-based index
is the new registry length), log the trigger line, and run the wrapped
`appExitHandler` body with a completion closure over that slot. -/
def fireSub (sub : Sub) (s : St) : St :=
  let reg := s.handler_callback_registry ++ [0]
  let slot := reg.length
  let s := { s with handler_callback_registry := reg, log_count := s.log_count + 1 }
  match sub with
  | .app _ => { s with issued_tokens := s.issued_tokens ++ [slot] }
  | .dflt => _defaultExitHandler slot s
  | .express i => emitDone slot (appSetFlag i true s)
  | .http i =>
    let s :=
      match s.servers.get? i with
      | some sv => { s with servers := s.servers.set i { sv with closing := true } }
      | none => s
    { s with pending_close := s.pending_close ++ [(i, slot)] }

/-- `_registerDefaultTimeoutHandler()`: subscribe `_defaultExitHandler`
(no timeout argument) and bind `_checkHandlersDone` on the `done` event
(an `.on` binding, so repeated calls stack). -/
def _registerDefaultTimeoutHandler (s : St) : St :=
  let s := addTidyExitHandler Sub.dflt none s
  { s with done_bound := s.done_bound + 1 }

/-- `_emittidyExitEvent(signal)`: lazily register the default handler,
snapshot the subscriber count, and emit the one-shot broadcast — every
current once-subscriber fires and is removed. -/
def _emittidyExitEvent (s : St) : St :=
  let s := _registerDefaultTimeoutHandler s
  let s := { s with registered_handlers_count := s.subs.length }
  let fired := s.subs
  let s := { s with subs := [], broadcast_count := s.broadcast_count + 1 }
  foldLive fireSub fired s

/-- Delivery of an OS termination signal: every bound single-fire process
listener for it is removed and runs `_emittidyExitEvent`. -/
def deliverSig (w : PSig) (s : St) : St :=
  match w with
  | .sigterm =>
    iterLive _emittidyExitEvent s.proc_sigterm { s with proc_sigterm := 0 }
  | .sigint =>
    iterLive _emittidyExitEvent s.proc_sigint { s with proc_sigint := 0 }
  | .sigbreak =>
    iterLive _emittidyExitEvent s.proc_sigbreak { s with proc_sigbreak := 0 }

/-- Delivery of a process `message` event: the single-fire listener is
consumed by the delivery itself; its body broadcasts only when the
payload is exactly the string "shutdown". -/
def deliverMsg (p : String) (s : St) : St :=
  iterLive (fun s => if p = "shutdown" then _emittidyExitEvent s else s)
    s.proc_msg { s with proc_msg := 0 }

/-- The armed suicide timer fires: re-check drainage without an increment
and force `process.exit(1)` (after a log line) when not drained. -/
def timerFire (s : St) : St :=
  if s.timer_live then
    let s := { s with timer_live := false }
    let r := _checkHandlersDone none s
    if r.2 then r.1
    else doExit 1 { r.1 with log_count := r.1.log_count + 1 }
  else s

/-- `_cleanupExitListeners()`: for every tracked event name remove the
tracked process listeners (removing an already auto-removed single-fire
listener is a no-op), null the tracked arrays and clear the guard; a
never-created tracking object skips everything. -/
def _cleanupExitListeners (s : St) : St :=
  match s.tracked with
  | none => s
  | some t =>
    { s with
      proc_msg := s.proc_msg - t.msgH
      proc_sigterm := s.proc_sigterm - t.termH
      proc_sigint := s.proc_sigint - t.intH
      proc_sigbreak := s.proc_sigbreak - t.breakH
      tracked := some ⟨0, 0, 0, 0⟩
      listening_to_exit := false }

/-- `_init()` (exported as `_reset`): empty the registry and snapshot,
replace the broadcast emitter (dropping all `tidyExit` and `done`
bindings), clean up process listeners, zero both timeout fields and clear
the suicide timer. -/
def _init (s : St) : St :=
  let s :=
    { s with
      handler_callback_registry := []
      registered_handlers_count := 0
      subs := []
      done_bound := 0 }
  let s := _cleanupExitListeners s
  { s with
    max_timeout := some 0
    max_handler_timeout := 0
    default_exit_timer := none
    timer_live := false }

/-- `hookExpressApp(app)`: when the app's exit-state flag is undefined,
install the middleware, set the flag to false and register the
flag-flipping cleanup task; the JS function has no return statement, so
both branches return undefined (`none`). -/
def hookExpressApp (i : Nat) (s : St) : St × Option Unit :=
  match s.apps.get? i with
  | none => (s, none)
  | some a =>
    if a.flag = none then
      let s := { s with apps := s.apps.set i { a with flag := some false, mw := a.mw + 1 } }
      let s := addTidyExitHandler (Sub.express i) none s
      (s, none)
    else (s, none)

/-- `_detectAndHookExpressApp(listener)`: duck-typed express detection
(`use`/`set`/`get` all functions) and hook on success. -/
def _detectAndHookExpressApp (rl : RL) (s : St) : St :=
  match rl with
  | .expressL j => (hookExpressApp j s).1
  | .plainL => s

/-- `hookHttpServer(server, hook_apps)`: register the server-close
cleanup task and, unless `hook_apps` is literally false, hook every
duck-typed express app among the server's request listeners; the JS
function has no return statement, so it returns undefined (`none`). -/
def hookHttpServer (i : Nat) (hook_apps : Option Bool) (s : St) : St × Option Unit :=
  let s := addTidyExitHandler (Sub.http i) none s
  let s :=
    if hook_apps ≠ some false then
      match s.servers.get? i with
      | some sv => sv.rls.foldl (fun s rl => _detectAndHookExpressApp rl s) s
      | none => s
    else s
  (s, none)

/-- Completion of `server.close` on server `i`: each pending close
callback for it runs the completion closure it captured. -/
def srvClosed (i : Nat) (s : St) : St :=
  let ready := s.pending_close.filter fun pr => pr.1 == i
  let s := { s with pending_close := s.pending_close.filter fun pr => !(pr.1 == i) }
  foldLive (fun pr s => emitDone pr.2 s) ready s

/-- Externally scheduled actions driving the coordinator: public API
calls, signal/message delivery, an application callback invoking a
completion closure it was handed, the suicide timer firing, and a server
finishing its close. -/
inductive Act
  | addHandler (id : Nat) (timeout : Option Nat)
  | setMax (t : Option Nat)
  | sig (w : PSig)
  | msg (p : String)
  | appDone (slot : Nat)
  | fireTimer
  | doReset
  | hookApp (i : Nat)
  | hookServer (i : Nat) (hook_apps : Option Bool)
  | serverClosed (i : Nat)
deriving DecidableEq, Repr

/-- One step: nothing runs in an exited process; otherwise dispatch the
action to the corresponding source function. -/
def stepAct (s : St) (a : Act) : St :=
  if s.exited.isSome then s
  else
    match a with
    | .addHandler id t => addTidyExitHandler (Sub.app id) t s
    | .setMax t => setMaxTimeout t s
    | .sig w => deliverSig w s
    | .msg p => deliverMsg p s
    | .appDone slot => if slot ∈ s.issued_tokens then emitDone slot s else s
    | .fireTimer => timerFire s
    | .doReset => _init s
    | .hookApp i => (hookExpressApp i s).1
    | .hookServer i h => (hookHttpServer i h s).1
    | .serverClosed i => srvClosed i s

/-- Initial world: the state right after module load (`_init()` ran), with
`na` fresh express apps and `ns` fresh http servers, server `j` carrying
app `j` as its request listener. -/
def initSt (na ns : Nat) : St :=
  { log_count := 0
    subs := []
    done_bound := 0
    registered_handlers_count := 0
    handler_callback_registry := []
    max_timeout := some 0
    max_handler_timeout := 0
    listening_to_exit := false
    tracked := none
    proc_msg := 0
    proc_sigterm := 0
    proc_sigint := 0
    proc_sigbreak := 0
    default_exit_timer := none
    timer_live := false
    exited := none
    exit_call_count := 0
    broadcast_count := 0
    done_events := []
    issued_tokens := []
    apps := List.replicate na ⟨none, 0⟩
    servers := (List.range ns).map fun j => ⟨false, [RL.expressL j]⟩
    pending_close := [] }

/-- Run an action trace from the initial world. -/
def runTrace (na ns : Nat) (acts : List Act) : St :=
  acts.foldl stepAct (initSt na ns)

/-- Ghost invariant: the number of effective `process.exit` calls is 1
when the process has exited and 0 otherwise — exit can take effect at
most once because it never returns. -/
def okExit (s : St) : Prop :=
  s.exit_call_count = if s.exited.isSome then 1 else 0

/-- The tracked-handler counts, with a never-created tracking object
reading as all zeros. -/
def trk (s : St) : Tracked := s.tracked.getD ⟨0, 0, 0, 0⟩

/-- Invariant: every bound process listener is tracked (so teardown can
remove them all). -/
def procOk (s : St) : Prop :=
  s.proc_msg ≤ (trk s).msgH ∧ s.proc_sigterm ≤ (trk s).termH ∧
    s.proc_sigint ≤ (trk s).intH ∧ s.proc_sigbreak ≤ (trk s).breakH

/-- The conjunction of the two reachability invariants. -/
def Inv (s : St) : Prop := okExit s ∧ procOk s

/-- The spec's §4.1 resolution function, written from the spec's words:
`H` = running max of per-task requested timeouts, `M` = global override
(unset rendered as value 0, like a cleared/never-set override); if `H`
is set and (`M` is unset or `M > H`) return `H`, else if `M` is set
return `M`, else the built-in default 120000 ms. -/
def resolveTimeoutSpec (H : Nat) (M : Option Nat) : Nat :=
  if H ≠ 0 ∧ (M.getD 0 = 0 ∨ M.getD 0 > H) then H
  else if M.getD 0 ≠ 0 then M.getD 0
  else 120000

theorem doExit_exited (c : Nat) (s : St) : (doExit c s).exited = some (s.exited.getD c) := by
  unfold doExit
  cases h : s.exited <;> simp [h]

theorem doExit_registry (c : Nat) (s : St) :
    (doExit c s).handler_callback_registry = s.handler_callback_registry := by
  unfold doExit
  split <;> rfl

theorem bumpSlot_length (cnt : Nat) (n : Option Nat) (s : St) :
    (bumpSlot cnt n s).handler_callback_registry.length =
      s.handler_callback_registry.length := by
  unfold bumpSlot
  repeat' split
  all_goals simp [incAt]

theorem bumpSlot_registered (cnt : Nat) (n : Option Nat) (s : St) :
    (bumpSlot cnt n s).registered_handlers_count = s.registered_handlers_count := by
  unfold bumpSlot
  repeat' split
  all_goals rfl

theorem bumpSlot_exited (cnt : Nat) (n : Option Nat) (s : St) :
    (bumpSlot cnt n s).exited = s.exited := by
  unfold bumpSlot
  repeat' split
  all_goals rfl

/-- C1: in every state, `getTimeout()` equals the §4.1 resolution
function over (H = running handler-timeout max, M = global override,
default 120000); concretely, registering a handler with timeout 322 and
calling setMaxTimeout(1231) yields 322, still 322 after
setMaxTimeout(null), and a handler with timeout 2462 capped by
setMaxTimeout(1231) yields 1231. -/
theorem getTimeout_matches_spec_resolution :
    (∀ s : St, getTimeout s = resolveTimeoutSpec s.max_handler_timeout s.max_timeout) ∧
    getTimeout (runTrace 0 0 [.addHandler 0 (some 322), .setMax (some 1231)]) = 322 ∧
    getTimeout (runTrace 0 0 [.addHandler 0 (some 322), .setMax (some 1231), .setMax none]) = 322 ∧
    getTimeout (runTrace 0 0 [.addHandler 0 (some 2462), .setMax (some 1231)]) = 1231 :=
  ⟨fun _ => rfl, by decide, by decide, by decide⟩

/-- C10: `setMaxTimeout(0)` behaves exactly like an unset override:
afterwards `getTimeout()` is the running handler max when one is set and
the built-in default 120000 otherwise, never 0; and the same resolution
holds in any state whose override field is the number 0 (the
initial/post-reset value). -/
theorem setMaxTimeout_zero_like_unset :
    ∀ s : St,
      getTimeout (setMaxTimeout (some 0) s) =
        (if s.max_handler_timeout = 0 then 120000 else s.max_handler_timeout) ∧
      getTimeout (setMaxTimeout (some 0) s) ≠ 0 ∧
      (s.max_timeout = some 0 →
        getTimeout s = if s.max_handler_timeout = 0 then 120000 else s.max_handler_timeout) := by
  intro s
  have harm : ∀ u : St, u.max_timeout = some 0 →
      getTimeout u = if u.max_handler_timeout = 0 then 120000 else u.max_handler_timeout := by
    intro u hu
    by_cases hH : u.max_handler_timeout = 0 <;> simp [getTimeout, mval, hu, hH]
  have h1 := harm (setMaxTimeout (some 0) s) rfl
  refine ⟨h1, ?_, fun hs => harm s hs⟩
  rw [h1]
  split <;> simp_all

/-- Witness for C10 at the initial state, whose override field is the
number 0. -/
theorem setMaxTimeout_zero_like_unset_witness :
    (initSt 0 0).max_timeout = some 0 ∧ getTimeout (initSt 0 0) = 120000 :=
  ⟨rfl, by simpa using (setMaxTimeout_zero_like_unset (initSt 0 0)).2.2 rfl⟩

/-- C2: `_checkHandlersDone` returns true exactly when the signal-time
subscriber snapshot is ≤ the current completion-registry length and every
slot counter is ≥ 1, and it calls `process.exit(0)` exactly on a true
result. -/
theorem checkHandlersDone_drained_iff_and_exit :
    ∀ (s : St) (n : Option Nat),
      ((_checkHandlersDone n s).2 = true ↔
        s.registered_handlers_count ≤ (_checkHandlersDone n s).1.handler_callback_registry.length ∧
          ∀ c ∈ (_checkHandlersDone n s).1.handler_callback_registry, 1 ≤ c) ∧
      (_checkHandlersDone n s).1.exited =
        (if (_checkHandlersDone n s).2 = true then some (s.exited.getD 0) else s.exited) := by
  intro s n
  unfold _checkHandlersDone
  have hlen := bumpSlot_length s.handler_callback_registry.length n s
  have hreg := bumpSlot_registered s.handler_callback_registry.length n s
  have hex := bumpSlot_exited s.handler_callback_registry.length n s
  set s1 := bumpSlot s.handler_callback_registry.length n s with hs1
  by_cases hc : s1.registered_handlers_count ≤ s.handler_callback_registry.length
  · by_cases ha : (s1.handler_callback_registry.all fun c => decide (1 ≤ c)) = true
    · simp only [hc, ha, if_pos, if_true]
      constructor
      · simp only [true_iff]
        refine ⟨?_, ?_⟩
        · rw [doExit_registry, hlen]
          omega
        · intro c hcmem
          rw [doExit_registry] at hcmem
          have := List.all_eq_true.mp ha c hcmem
          simpa using this
      · rw [doExit_exited, hex]
    · simp only [hc, ha, if_pos, if_neg, Bool.false_eq_true, if_false]
      constructor
      · simp only [false_iff, not_and]
        intro _
        intro hall
        apply ha
        exact List.all_eq_true.mpr fun c hcmem => by simpa using hall c hcmem
      · rw [hex]
  · simp only [hc, if_neg, Bool.false_eq_true, if_false]
    constructor
    · simp only [false_iff, not_and]
      intro hle
      rw [hlen] at hle
      rw [hreg] at hc
      omega
    · rw [hex]

/-- Witness for C2 at a concrete post-signal state: the application
task's completion call drains the registry and exits with status 0. -/
theorem checkHandlersDone_drained_witness :
    (_checkHandlersDone (some 1) (runTrace 0 0 [.addHandler 0 none, .sig .sigterm])).2 = true ∧
    (_checkHandlersDone (some 1) (runTrace 0 0 [.addHandler 0 none, .sig .sigterm])).1.exited =
      some 0 := by
  have h := checkHandlersDone_drained_iff_and_exit
    (runTrace 0 0 [.addHandler 0 none, .sig .sigterm]) (some 1)
  refine ⟨h.1.mpr ⟨by decide, by decide⟩, ?_⟩
  rw [h.2]
  decide

theorem doExit_log (c : Nat) (s : St) : (doExit c s).log_count = s.log_count := by
  unfold doExit
  split <;> rfl

theorem doExit_registered (c : Nat) (s : St) :
    (doExit c s).registered_handlers_count = s.registered_handlers_count := by
  unfold doExit
  split <;> rfl

/-- C6 counterexample: invoking the completion check with a missing slot
index does not log — from a post-signal state with two log lines, the
log count is unchanged (the source logs only for a truthy out-of-range
number, the `if (handler_number)` guard skips a missing one silently). -/
theorem missing_slot_does_not_log :
    (_checkHandlersDone none
        (runTrace 0 0 [.addHandler 0 none, .sig .sigterm])).1.log_count =
      (runTrace 0 0 [.addHandler 0 none, .sig .sigterm]).log_count ∧
    (runTrace 0 0 [.addHandler 0 none, .sig .sigterm]).log_count = 2 := by
  decide

/-- C6 amended: a completion call with an out-of-range slot index logs a
message and is otherwise a no-op — counters, registry length and the
snapshot are untouched and the drained/exit decision equals that of a
call with no increment; a missing index is the same no-op without the
log line. -/
theorem invalid_slot_noop :
    ∀ (s : St) (k : Nat), s.handler_callback_registry.length < k →
      ((_checkHandlersDone (some k) s).1.handler_callback_registry =
          s.handler_callback_registry ∧
        (_checkHandlersDone (some k) s).1.log_count = s.log_count + 1 ∧
        (_checkHandlersDone (some k) s).1.registered_handlers_count =
          s.registered_handlers_count ∧
        (_checkHandlersDone (some k) s).2 = (_checkHandlersDone none s).2 ∧
        (_checkHandlersDone (some k) s).1.exited = (_checkHandlersDone none s).1.exited) ∧
      (_checkHandlersDone none s).1.handler_callback_registry =
          s.handler_callback_registry ∧
        (_checkHandlersDone none s).1.log_count = s.log_count := by
  intro s k hk
  have hk0 : k ≠ 0 := by omega
  have hkle : ¬ k ≤ s.handler_callback_registry.length := by omega
  have hb : bumpSlot s.handler_callback_registry.length (some k) s =
      { s with log_count := s.log_count + 1 } := by
    unfold bumpSlot
    simp [hk0, hkle]
  have hb0 : bumpSlot s.handler_callback_registry.length none s = s := rfl
  simp only [_checkHandlersDone, hb, hb0]
  by_cases hc : s.registered_handlers_count ≤ s.handler_callback_registry.length
  · by_cases ha : (s.handler_callback_registry.all fun c => decide (1 ≤ c)) = true
    · simp [hc, ha, doExit_registry, doExit_log, doExit_registered, doExit_exited]
    · simp [hc, ha]
  · simp [hc]

/-- Witness for the amended C6 at a concrete post-signal state and an
out-of-range slot. -/
theorem invalid_slot_noop_witness :
    (runTrace 0 0 [.addHandler 0 none, .sig .sigterm]).handler_callback_registry.length < 7 ∧
    (_checkHandlersDone (some 7)
        (runTrace 0 0 [.addHandler 0 none, .sig .sigterm])).1.log_count =
      (runTrace 0 0 [.addHandler 0 none, .sig .sigterm]).log_count + 1 :=
  ⟨by decide,
    (invalid_slot_noop (runTrace 0 0 [.addHandler 0 none, .sig .sigterm]) 7
      (by decide)).1.2.1⟩

/-- C9 counterexample: registering one cleanup task leaves the completion
registry empty — the slot is not assigned at `addTidyExitHandler` time,
so the registry length is 0, not 1, after one registration. -/
theorem slot_not_assigned_at_registration :
    (runTrace 0 0 [.addHandler 0 none]).handler_callback_registry.length = 0 := by
  decide

/-- C9 amended: registration leaves the completion registry unchanged;
slots are assigned when the shutdown broadcast fires the tasks, 1-based
and consecutive in registration order — after two registrations and a
SIGTERM the two application tasks hold slots [1, 2] and the registry has
three slots (the third belonging to the appended safety-net task, already
completed once). -/
theorem slots_assigned_at_broadcast :
    (∀ (s : St) (sub : Sub) (t : Option Nat),
      (addTidyExitHandler sub t s).handler_callback_registry =
        s.handler_callback_registry) ∧
    (runTrace 0 0 [.addHandler 1 none, .addHandler 2 none, .sig .sigterm]).issued_tokens =
      [1, 2] ∧
    (runTrace 0 0 [.addHandler 1 none, .addHandler 2 none, .sig .sigterm]).handler_callback_registry =
      [0, 0, 1] := by
  refine ⟨?_, by decide, by decide⟩
  intro s sub t
  simp only [addTidyExitHandler, _registerExitListeners]
  repeat' split
  all_goals rfl

/-- C4: both hook functions of the source return undefined — neither has
a return statement — contradicting the documented handle with `close()`;
the express hook does install the middleware, set the flag to false and
register the flag-flipping cleanup task on first binding. -/
theorem hooks_return_no_handle :
    (∀ (s : St) (i : Nat) (h : Option Bool), (hookHttpServer i h s).2 = none) ∧
    (∀ (s : St) (i : Nat), (hookExpressApp i s).2 = none) ∧
    (hookHttpServer 0 none (initSt 1 1)).2 = none ∧
    (hookExpressApp 0 (initSt 1 0)).1.apps = [⟨some false, 1⟩] ∧
    (hookExpressApp 0 (initSt 1 0)).1.subs = [Sub.express 0] := by
  refine ⟨?_, ?_, by decide, by decide, by decide⟩
  · intro s i h
    unfold hookHttpServer
    repeat' split
    all_goals rfl
  · intro s i
    unfold hookExpressApp
    repeat' split
    all_goals rfl

theorem doExit_timer (c : Nat) (s : St) :
    (doExit c s).default_exit_timer = s.default_exit_timer := by
  unfold doExit
  split <;> rfl

theorem doExit_done_events (c : Nat) (s : St) :
    (doExit c s).done_events = s.done_events := by
  unfold doExit
  split <;> rfl

theorem bumpSlot_timer (cnt : Nat) (n : Option Nat) (s : St) :
    (bumpSlot cnt n s).default_exit_timer = s.default_exit_timer := by
  unfold bumpSlot
  repeat' split
  all_goals rfl

theorem bumpSlot_done_events (cnt : Nat) (n : Option Nat) (s : St) :
    (bumpSlot cnt n s).done_events = s.done_events := by
  unfold bumpSlot
  repeat' split
  all_goals rfl

theorem doExit_timer_live (c : Nat) (s : St) :
    (doExit c s).timer_live = s.timer_live := by
  unfold doExit
  split <;> rfl

theorem bumpSlot_timer_live (cnt : Nat) (n : Option Nat) (s : St) :
    (bumpSlot cnt n s).timer_live = s.timer_live := by
  unfold bumpSlot
  repeat' split
  all_goals rfl

theorem check_timer (n : Option Nat) (s : St) :
    (_checkHandlersDone n s).1.default_exit_timer = s.default_exit_timer := by
  simp only [_checkHandlersDone]
  repeat' split
  all_goals simp [doExit_timer, bumpSlot_timer]

theorem check_done_events (n : Option Nat) (s : St) :
    (_checkHandlersDone n s).1.done_events = s.done_events := by
  simp only [_checkHandlersDone]
  repeat' split
  all_goals simp [doExit_done_events, bumpSlot_done_events]

theorem check_timer_live (n : Option Nat) (s : St) :
    (_checkHandlersDone n s).1.timer_live = s.timer_live := by
  simp only [_checkHandlersDone]
  repeat' split
  all_goals simp [doExit_timer_live, bumpSlot_timer_live]

theorem check_exited_eq (n : Option Nat) (s : St) :
    (_checkHandlersDone n s).1.exited =
      (if (_checkHandlersDone n s).2 = true then some (s.exited.getD 0) else s.exited) := by
  have hex := bumpSlot_exited s.handler_callback_registry.length n s
  simp only [_checkHandlersDone]
  repeat' split
  all_goals simp_all [doExit_exited, hex]

theorem iterLive_field {α : Type} (f : St → St) (g : St → α)
    (hf : ∀ u, g (f u) = g u) : ∀ (n : Nat) (s : St), g (iterLive f n s) = g s := by
  intro n
  induction n with
  | zero => intro s; rfl
  | succ m ih =>
    intro s
    show g (iterLive f m (ifLive f s)) = g s
    rw [ih]
    unfold ifLive
    split
    · rfl
    · exact hf s

theorem emitDone_done_events (slot : Nat) (s : St) :
    (emitDone slot s).done_events = s.done_events ++ [slot] := by
  unfold emitDone
  rw [iterLive_field _ (fun u => u.done_events) (fun u => check_done_events (some slot) u)]

theorem emitDone_timer (slot : Nat) (s : St) :
    (emitDone slot s).default_exit_timer = s.default_exit_timer := by
  unfold emitDone
  rw [iterLive_field _ (fun u => u.default_exit_timer) (fun u => check_timer (some slot) u)]

theorem emitDone_timer_live (slot : Nat) (s : St) :
    (emitDone slot s).timer_live = s.timer_live := by
  unfold emitDone
  rw [iterLive_field _ (fun u => u.timer_live) (fun u => check_timer_live (some slot) u)]

/-- C5: the safety-net task arms exactly one timer, for `getTimeout()`
milliseconds, when no timer handle exists, and with a handle already set
it arms nothing; in both cases it invokes its completion callback
unconditionally; and when the armed timer fires with the drained check
still false, `process.exit(1)` is called. -/
theorem defaultExitHandler_arms_and_completes :
    ∀ (s : St) (slot : Nat),
      (s.default_exit_timer = none →
        (_defaultExitHandler slot s).default_exit_timer = some (getTimeout s) ∧
        (_defaultExitHandler slot s).timer_live = true ∧
        (_defaultExitHandler slot s).done_events = s.done_events ++ [slot]) ∧
      (∀ d, s.default_exit_timer = some d →
        (_defaultExitHandler slot s).default_exit_timer = some d ∧
        (_defaultExitHandler slot s).done_events = s.done_events ++ [slot]) ∧
      (s.timer_live = true → s.exited = none →
        (_checkHandlersDone none { s with timer_live := false }).2 = false →
        (timerFire s).exited = some 1) := by
  intro s slot
  refine ⟨?_, ?_, ?_⟩
  · intro h
    unfold _defaultExitHandler
    rw [if_pos h]
    exact ⟨by rw [emitDone_timer], by rw [emitDone_timer_live], by rw [emitDone_done_events]⟩
  · intro d h
    unfold _defaultExitHandler
    rw [if_neg (by simp [h])]
    exact ⟨by rw [emitDone_timer, h], by rw [emitDone_done_events]⟩
  · intro hl hex hnd
    have h1 : (_checkHandlersDone none { s with timer_live := false }).1.exited = none := by
      rw [check_exited_eq, hnd]
      simpa using hex
    simp only [timerFire, hl, if_true]
    rw [hnd]
    simp [doExit_exited, h1]

/-- Witness for C5: arming from a fresh post-registration state, and a
timer fire from a concrete armed-but-undrained state forcing exit 1. -/
theorem defaultExitHandler_witness :
    ((runTrace 0 0 [.addHandler 0 none]).default_exit_timer = none ∧
      (_defaultExitHandler 1 (runTrace 0 0 [.addHandler 0 none])).default_exit_timer =
        some 120000) ∧
    ((runTrace 0 0 [.addHandler 0 none, .sig .sigterm]).timer_live = true ∧
      (timerFire (runTrace 0 0 [.addHandler 0 none, .sig .sigterm])).exited = some 1) := by
  constructor
  · refine ⟨by decide, ?_⟩
    have h := (defaultExitHandler_arms_and_completes
      (runTrace 0 0 [.addHandler 0 none]) 1).1 (by decide)
    rw [h.1]
    decide
  · refine ⟨by decide, ?_⟩
    exact (defaultExitHandler_arms_and_completes
      (runTrace 0 0 [.addHandler 0 none, .sig .sigterm]) 1).2.2
      (by decide) (by decide) (by decide)

theorem iterLive_id (n : Nat) (s : St) : iterLive (fun v : St => v) n s = s := by
  induction n with
  | zero => rfl
  | succ m ih =>
    show iterLive _ m (ifLive (fun v : St => v) s) = s
    rw [show ifLive (fun v : St => v) s = s from by unfold ifLive; split <;> rfl, ih]

/-- C7 counterexample: after a handler registration, a non-"shutdown"
message followed by a "shutdown" message produces no broadcast at all
(the single-fire message listener is consumed by the first message),
whereas a "shutdown" message alone does broadcast. -/
theorem nonshutdown_message_consumes_listener :
    (runTrace 0 0 [.addHandler 0 none, .msg "stop", .msg "shutdown"]).broadcast_count = 0 ∧
    (runTrace 0 0 [.addHandler 0 none, .msg "shutdown"]).broadcast_count = 1 := by
  decide

/-- C7 amended: only the exact payload "shutdown" broadcasts; any other
payload leaves every coordinator field unchanged except that it consumes
the single-fire message listener, so a later "shutdown" message no longer
triggers the broadcast. -/
theorem nonshutdown_message_is_filtered :
    ∀ (s : St) (p : String), p ≠ "shutdown" →
      deliverMsg p s = { s with proc_msg := 0 } ∧
      (deliverMsg "shutdown" (deliverMsg p s)).broadcast_count = s.broadcast_count := by
  intro s p hp
  have hfun : (fun u : St => if p = "shutdown" then _emittidyExitEvent u else u) =
      fun u : St => u :=
    funext fun u => by simp [hp]
  have h1 : deliverMsg p s = { s with proc_msg := 0 } := by
    unfold deliverMsg
    rw [hfun, iterLive_id]
  refine ⟨h1, ?_⟩
  rw [h1]
  rfl

/-- Witness for the amended C7 with payload "stop" from a
post-registration state. -/
theorem nonshutdown_message_witness :
    deliverMsg "stop" (runTrace 0 0 [.addHandler 0 none]) =
      { runTrace 0 0 [.addHandler 0 none] with proc_msg := 0 } ∧
    (deliverMsg "shutdown" (deliverMsg "stop" (runTrace 0 0 [.addHandler 0 none]))).broadcast_count =
      (runTrace 0 0 [.addHandler 0 none]).broadcast_count :=
  nonshutdown_message_is_filtered (runTrace 0 0 [.addHandler 0 none]) "stop" (by decide)

/-- C3 counterexample: with one registered task, SIGTERM followed by
SIGINT runs two broadcast cycles (the second fires the re-registered
safety-net task, appending a third slot), and SIGTERM followed by a
"shutdown" message does the same. -/
theorem two_distinct_triggers_two_broadcasts :
    (runTrace 0 0 [.addHandler 0 none, .sig .sigterm, .sig .sigint]).broadcast_count = 2 ∧
    (runTrace 0 0 [.addHandler 0 none, .sig .sigterm, .sig .sigint]).handler_callback_registry =
      [0, 1, 2] ∧
    (runTrace 0 0 [.addHandler 0 none, .sig .sigterm, .msg "shutdown"]).broadcast_count = 2 := by
  decide

theorem inv_doExit (c : Nat) (s : St) (h : Inv s) : Inv (doExit c s) := by
  unfold doExit
  split
  · exact h
  · obtain ⟨h1, h2⟩ := h
    refine ⟨?_, h2⟩
    unfold okExit at h1 ⊢
    simp_all

theorem inv_bumpSlot (cnt : Nat) (n : Option Nat) (s : St) (h : Inv s) :
    Inv (bumpSlot cnt n s) := by
  unfold bumpSlot
  repeat' split
  all_goals exact h

theorem inv_check (n : Option Nat) (s : St) (h : Inv s) :
    Inv (_checkHandlersDone n s).1 := by
  simp only [_checkHandlersDone]
  repeat' split
  all_goals first
    | exact inv_doExit _ _ (inv_bumpSlot _ _ _ h)
    | exact inv_bumpSlot _ _ _ h

theorem inv_iterLive (f : St → St) (hf : ∀ u, Inv u → Inv (f u)) :
    ∀ (n : Nat) (s : St), Inv s → Inv (iterLive f n s) := by
  intro n
  induction n with
  | zero => intro s h; exact h
  | succ m ih =>
    intro s h
    show Inv (iterLive f m (ifLive f s))
    apply ih
    unfold ifLive
    split
    · exact h
    · exact hf s h

theorem inv_foldLive {α : Type} (f : α → St → St) (hf : ∀ a u, Inv u → Inv (f a u)) :
    ∀ (l : List α) (s : St), Inv s → Inv (foldLive f l s) := by
  intro l
  induction l with
  | nil => intro s h; exact h
  | cons x xs ih =>
    intro s h
    show Inv (foldLive f xs (ifLive (f x) s))
    apply ih
    unfold ifLive
    split
    · exact h
    · exact hf x s h

theorem inv_emitDone (slot : Nat) (s : St) (h : Inv s) : Inv (emitDone slot s) := by
  unfold emitDone
  exact inv_iterLive _ (fun u hu => inv_check _ _ hu) _ _ h

theorem inv_defaultExitHandler (slot : Nat) (s : St) (h : Inv s) :
    Inv (_defaultExitHandler slot s) := by
  unfold _defaultExitHandler
  apply inv_emitDone
  split
  · exact h
  · exact h

theorem inv_appSetFlag (i : Nat) (b : Bool) (s : St) (h : Inv s) :
    Inv (appSetFlag i b s) := by
  unfold appSetFlag
  repeat' split
  all_goals exact h

theorem inv_fireSub (sub : Sub) (s : St) (h : Inv s) : Inv (fireSub sub s) := by
  cases sub with
  | app id => exact h
  | dflt => exact inv_defaultExitHandler _ _ h
  | express i => exact inv_emitDone _ _ (inv_appSetFlag _ _ _ h)
  | http i =>
    simp only [fireSub]
    repeat' split
    all_goals exact h

theorem inv_registerExitListeners (s : St) (h : Inv s) :
    Inv (_registerExitListeners s) := by
  obtain ⟨h1, ha, hb, hc, hd⟩ := h
  unfold _registerExitListeners
  split
  · refine ⟨h1, ?_, ?_, ?_, ?_⟩
    all_goals unfold trk at *
    all_goals simp only [Option.getD_some]
    · omega
    · omega
    · omega
    · omega
  · exact ⟨h1, ha, hb, hc, hd⟩

theorem inv_addTidyExitHandler (sub : Sub) (t : Option Nat) (s : St) (h : Inv s) :
    Inv (addTidyExitHandler sub t s) := by
  simp only [addTidyExitHandler]
  have h' := inv_registerExitListeners s h
  repeat' split
  all_goals exact h'

theorem inv_registerDefault (s : St) (h : Inv s) :
    Inv (_registerDefaultTimeoutHandler s) := by
  unfold _registerDefaultTimeoutHandler
  exact inv_addTidyExitHandler _ _ _ h

theorem inv_emitEvent (s : St) (h : Inv s) : Inv (_emittidyExitEvent s) := by
  unfold _emittidyExitEvent
  exact inv_foldLive _ (fun a u hu => inv_fireSub a u hu) _ _ (inv_registerDefault _ h)

theorem inv_deliverSig (w : PSig) (s : St) (h : Inv s) : Inv (deliverSig w s) := by
  unfold deliverSig
  cases w with
  | sigterm =>
    exact inv_iterLive _ (fun u hu => inv_emitEvent u hu) _ _
      ⟨h.1, h.2.1, Nat.zero_le _, h.2.2.2.1, h.2.2.2.2⟩
  | sigint =>
    exact inv_iterLive _ (fun u hu => inv_emitEvent u hu) _ _
      ⟨h.1, h.2.1, h.2.2.1, Nat.zero_le _, h.2.2.2.2⟩
  | sigbreak =>
    exact inv_iterLive _ (fun u hu => inv_emitEvent u hu) _ _
      ⟨h.1, h.2.1, h.2.2.1, h.2.2.2.1, Nat.zero_le _⟩

theorem inv_deliverMsg (p : String) (s : St) (h : Inv s) : Inv (deliverMsg p s) := by
  unfold deliverMsg
  refine inv_iterLive _ (fun u hu => ?_) _ _
    ⟨h.1, Nat.zero_le _, h.2.2.1, h.2.2.2.1, h.2.2.2.2⟩
  split
  · exact inv_emitEvent u hu
  · exact hu

theorem inv_timerFire (s : St) (h : Inv s) : Inv (timerFire s) := by
  simp only [timerFire]
  split
  · split
    · exact inv_check _ _ h
    · exact inv_doExit _ _ (inv_check _ _ h)
  · exact h

theorem inv_cleanup (s : St) (h : Inv s) : Inv (_cleanupExitListeners s) := by
  obtain ⟨h1, ha, hb, hc, hd⟩ := h
  unfold _cleanupExitListeners
  split
  · exact ⟨h1, ha, hb, hc, hd⟩
  · rename_i t ht
    have ha' : s.proc_msg ≤ t.msgH := by unfold trk at ha; rw [ht] at ha; simpa using ha
    have hb' : s.proc_sigterm ≤ t.termH := by unfold trk at hb; rw [ht] at hb; simpa using hb
    have hc' : s.proc_sigint ≤ t.intH := by unfold trk at hc; rw [ht] at hc; simpa using hc
    have hd' : s.proc_sigbreak ≤ t.breakH := by unfold trk at hd; rw [ht] at hd; simpa using hd
    refine ⟨h1, ?_, ?_, ?_, ?_⟩
    all_goals simp [trk]
    all_goals omega

theorem inv_init (s : St) (h : Inv s) : Inv (_init s) := by
  unfold _init
  exact inv_cleanup _ h

theorem inv_hookExpress (i : Nat) (s : St) (h : Inv s) : Inv (hookExpressApp i s).1 := by
  simp only [hookExpressApp]
  repeat' split
  all_goals first
    | exact inv_addTidyExitHandler _ _ _ h
    | exact h

theorem inv_detect (rl : RL) (s : St) (h : Inv s) : Inv (_detectAndHookExpressApp rl s) := by
  unfold _detectAndHookExpressApp
  cases rl with
  | expressL j => exact inv_hookExpress _ _ h
  | plainL => exact h

theorem inv_foldDetect (l : List RL) :
    ∀ s : St, Inv s → Inv (l.foldl (fun s rl => _detectAndHookExpressApp rl s) s) := by
  induction l with
  | nil => intro s h; exact h
  | cons x xs ih => intro s h; exact ih _ (inv_detect _ _ h)

theorem inv_hookHttp (i : Nat) (ha : Option Bool) (s : St) (h : Inv s) :
    Inv (hookHttpServer i ha s).1 := by
  simp only [hookHttpServer]
  repeat' split
  all_goals first
    | exact inv_foldDetect _ _ (inv_addTidyExitHandler _ _ _ h)
    | exact inv_addTidyExitHandler _ _ _ h

theorem inv_srvClosed (i : Nat) (s : St) (h : Inv s) : Inv (srvClosed i s) := by
  unfold srvClosed
  exact inv_foldLive _ (fun a u hu => inv_emitDone _ _ hu) _ _ h

theorem inv_stepAct (s : St) (a : Act) (h : Inv s) : Inv (stepAct s a) := by
  unfold stepAct
  split
  · exact h
  · cases a with
    | addHandler id t => exact inv_addTidyExitHandler _ _ _ h
    | setMax t => exact h
    | sig w => exact inv_deliverSig _ _ h
    | msg p => exact inv_deliverMsg _ _ h
    | appDone slot =>
      show Inv (if slot ∈ s.issued_tokens then emitDone slot s else s)
      split
      · exact inv_emitDone _ _ h
      · exact h
    | fireTimer => exact inv_timerFire _ h
    | doReset => exact inv_init _ h
    | hookApp i => exact inv_hookExpress _ _ h
    | hookServer i hb => exact inv_hookHttp _ _ _ h
    | serverClosed i => exact inv_srvClosed _ _ h

theorem inv_runTrace (na ns : Nat) (acts : List Act) : Inv (runTrace na ns acts) := by
  have hinit : Inv (initSt na ns) := ⟨rfl, by simp [initSt, procOk, trk]⟩
  have hfold : ∀ (l : List Act) (s : St), Inv s → Inv (l.foldl stepAct s) := by
    intro l
    induction l with
    | nil => intro s h; exact h
    | cons x xs ih => intro s h; exact ih _ (inv_stepAct _ _ h)
  exact hfold acts _ hinit

/-- C3 amended: in every execution process-exit takes effect at most
once (exit never returns, so nothing runs after it); a second delivery
of the same qualifying trigger is a complete no-op — the single-fire
binding was consumed — so the same signal twice yields exactly one
broadcast cycle; two distinct qualifying triggers, however, each run a
broadcast cycle of their own (the later ones reaching only the
re-registered safety-net task). -/
theorem exit_at_most_once_and_single_fire :
    (∀ (na ns : Nat) (acts : List Act), (runTrace na ns acts).exit_call_count ≤ 1) ∧
    runTrace 0 0 [.addHandler 0 none, .sig .sigterm, .sig .sigterm] =
      runTrace 0 0 [.addHandler 0 none, .sig .sigterm] ∧
    (runTrace 0 0 [.addHandler 0 none, .sig .sigterm]).broadcast_count = 1 := by
  refine ⟨?_, by decide, by decide⟩
  intro na ns acts
  have h := (inv_runTrace na ns acts).1
  unfold okExit at h
  rw [h]
  split <;> omega

/-- C8: `_init` (the reset) is idempotent from any state; after it the
completion registry is empty, the broadcast channel has no subscribers,
the safety-net timer is cleared and dead, `getTimeout()` is the built-in
default 120000 ms, and — from any reachable state — no process signal
listeners remain bound. -/
theorem reset_idempotent_and_clean :
    (∀ s : St, _init (_init s) = _init s) ∧
    (∀ s : St,
      (_init s).handler_callback_registry = [] ∧
      (_init s).subs = [] ∧
      (_init s).done_bound = 0 ∧
      (_init s).default_exit_timer = none ∧
      (_init s).timer_live = false ∧
      getTimeout (_init s) = 120000) ∧
    (∀ (na ns : Nat) (acts : List Act),
      (_init (runTrace na ns acts)).proc_msg = 0 ∧
      (_init (runTrace na ns acts)).proc_sigterm = 0 ∧
      (_init (runTrace na ns acts)).proc_sigint = 0 ∧
      (_init (runTrace na ns acts)).proc_sigbreak = 0) := by
  refine ⟨?_, ?_, ?_⟩
  · intro s
    cases htr : s.tracked <;> simp [_init, _cleanupExitListeners, htr]
  · intro s
    cases htr : s.tracked <;> simp [_init, _cleanupExitListeners, getTimeout, mval, htr]
  · intro na ns acts
    obtain ⟨hok, ha, hb, hc, hd⟩ := inv_runTrace na ns acts
    set s := runTrace na ns acts with hs
    cases htr : s.tracked with
    | none =>
      have ha' : s.proc_msg = 0 := by unfold trk at ha; rw [htr] at ha; simpa using ha
      have hb' : s.proc_sigterm = 0 := by unfold trk at hb; rw [htr] at hb; simpa using hb
      have hc' : s.proc_sigint = 0 := by unfold trk at hc; rw [htr] at hc; simpa using hc
      have hd' : s.proc_sigbreak = 0 := by unfold trk at hd; rw [htr] at hd; simpa using hd
      simp [_init, _cleanupExitListeners, htr, ha', hb', hc', hd']
    | some t =>
      have ha' : s.proc_msg ≤ t.msgH := by unfold trk at ha; rw [htr] at ha; simpa using ha
      have hb' : s.proc_sigterm ≤ t.termH := by unfold trk at hb; rw [htr] at hb; simpa using hb
      have hc' : s.proc_sigint ≤ t.intH := by unfold trk at hc; rw [htr] at hc; simpa using hc
      have hd' : s.proc_sigbreak ≤ t.breakH := by unfold trk at hd; rw [htr] at hd; simpa using hd
      refine ⟨?_, ?_, ?_, ?_⟩
      all_goals simp [_init, _cleanupExitListeners, htr]
      all_goals omega

end TidyExit
